import Mathlib

/-!
Verification of the window-placement backend in
`src/sidebar-os/src-tauri/src/lib.rs`.

The geometry core (`calculate_top_center_position` and the inlined
arithmetic of the left/right edge-center commands) is embedded over
mathematical integers: `i32` values become `Int`, `u32` sizes become
`Nat` and are cast to `Int` exactly where the source writes `as i32`.
Pixel magnitudes are far below `2^31`, so two's-complement wrapping is
never observable on the inputs the claims range over; the one machine
detail that *is* observable is that Rust's `Ord::clamp` asserts
`min <= max` and panics otherwise, so clamping is embedded as an
`Option`-valued function where `none` models the panic.

The Tauri shell commands are embedded by passing the host handles
explicitly: an `AppHandle` record carries the panel-window lookup
result, the monitor/size query results, the `set_position` outcome and
the settings store, and each command returns its `Result<(), String>`
together with the list of positions it passed to `set_position`.
An outer `Option` models a Rust panic escaping the command.
-/

/-- `PhysicalPosition<i32>`: a 2D integer coordinate in physical pixels. -/
structure PhysicalPosition where
  x : Int
  y : Int
deriving DecidableEq, Repr

/-- `PhysicalSize<u32>`: non-negative physical pixel dimensions. -/
structure PhysicalSize where
  width : Nat
  height : Nat
deriving DecidableEq, Repr

/-- Rust's `Ord::clamp` on `i32`: `assert!(min <= max)` then snap to the
nearest bound. `none` models the panic raised when `min > max`. -/
def rustClamp (v lo hi : Int) : Option Int :=
  if lo ≤ hi then
    some (if v < lo then lo else if v > hi then hi else v)
  else
    none

/-- `calculate_top_center_position` (lib.rs lines 59-83): horizontal
centering plus a vertical margin from the top (or from the top via the
bottom-left origin flip), each axis clamped to the monitor rectangle.
Rust `i32` division truncates toward zero, hence `Int.tdiv`. -/
def calculate_top_center_position
    (monitor_position : PhysicalPosition)
    (monitor_size : PhysicalSize)
    (window_size : PhysicalSize)
    (vertical_margin : Int)
    (origin_bottom_left : Bool) : Option (Int × Int) :=
  let available_width : Int := (monitor_size.width : Int) - (window_size.width : Int)
  let desired_x := monitor_position.x + Int.tdiv available_width 2
  let min_x := monitor_position.x
  let max_x := monitor_position.x + available_width
  match rustClamp desired_x min_x max_x with
  | none => none
  | some clamped_x =>
    let available_height : Int := (monitor_size.height : Int) - (window_size.height : Int)
    let desired_y :=
      if origin_bottom_left then
        monitor_position.y + available_height - vertical_margin
      else
        monitor_position.y + vertical_margin
    let min_y := monitor_position.y
    let max_y := monitor_position.y + available_height
    match rustClamp desired_y min_y max_y with
    | none => none
    | some clamped_y => some (clamped_x, clamped_y)

/-- The pre-clamp vertical coordinate of `calculate_top_center_position`
(the `desired_y` binding, lib.rs lines 73-77). -/
def topCenterDesiredY
    (monitor_position : PhysicalPosition)
    (monitor_size : PhysicalSize)
    (window_size : PhysicalSize)
    (vertical_margin : Int)
    (origin_bottom_left : Bool) : Int :=
  let available_height : Int := (monitor_size.height : Int) - (window_size.height : Int)
  if origin_bottom_left then
    monitor_position.y + available_height - vertical_margin
  else
    monitor_position.y + vertical_margin

/-- When the interval is well ordered, `rustClamp` succeeds and its
result lies inside the interval. -/
theorem rustClamp_bounds (v lo hi : Int) (h : lo ≤ hi) :
    ∃ r, rustClamp v lo hi = some r ∧ lo ≤ r ∧ r ≤ hi := by
  refine ⟨if v < lo then lo else if v > hi then hi else v, ?_, ?_, ?_⟩
  · simp [rustClamp, h]
  · split
    · exact le_refl lo
    · split
      · exact h
      · omega
  · split
    · exact h
    · split
      · exact le_refl hi
      · omega

/-- Claim C1: whenever the window fits on the monitor on both axes, the
position returned by `calculate_top_center_position` keeps the window
fully inside the monitor rectangle, for every position, margin
(including margins exceeding the monitor extent) and origin convention. -/
theorem C1_top_center_stays_within_monitor
    (mp : PhysicalPosition) (ms ws : PhysicalSize) (vm : Int) (ob : Bool)
    (hw : ws.width ≤ ms.width) (hh : ws.height ≤ ms.height) :
    ∃ x y, calculate_top_center_position mp ms ws vm ob = some (x, y) ∧
      mp.x ≤ x ∧ x ≤ mp.x + (ms.width : Int) - (ws.width : Int) ∧
      mp.y ≤ y ∧ y ≤ mp.y + (ms.height : Int) - (ws.height : Int) := by
  obtain ⟨cx, hcx, hcx1, hcx2⟩ :=
    rustClamp_bounds (mp.x + Int.tdiv ((ms.width : Int) - (ws.width : Int)) 2)
      mp.x (mp.x + ((ms.width : Int) - (ws.width : Int))) (by omega)
  obtain ⟨cy, hcy, hcy1, hcy2⟩ :=
    rustClamp_bounds
      (if ob then mp.y + ((ms.height : Int) - (ws.height : Int)) - vm else mp.y + vm)
      mp.y (mp.y + ((ms.height : Int) - (ws.height : Int))) (by omega)
  refine ⟨cx, cy, ?_, hcx1, by omega, hcy1, by omega⟩
  simp only [calculate_top_center_position]
  rw [hcx, hcy]

/-- Witness for C1 at monitor (0,0) 1920×1080, window 420×110, margin 40. -/
theorem C1_witness :
    (420 : Nat) ≤ 1920 ∧ (110 : Nat) ≤ 1080 ∧
    ∃ x y, calculate_top_center_position ⟨0, 0⟩ ⟨1920, 1080⟩ ⟨420, 110⟩ 40 false
        = some (x, y) ∧
      (0 : Int) ≤ x ∧ x ≤ 0 + (1920 : Int) - (420 : Int) ∧
      (0 : Int) ≤ y ∧ y ≤ 0 + (1080 : Int) - (110 : Int) :=
  ⟨by decide, by decide,
    C1_top_center_stays_within_monitor ⟨0, 0⟩ ⟨1920, 1080⟩ ⟨420, 110⟩ 40 false
      (by decide) (by decide)⟩

/-- Claim C2 evaluation: when the window is wider than the monitor
(available_width negative), `calculate_top_center_position` hits Rust's
`Ord::clamp` assertion (`min > max`) and panics, modelled as `none`,
instead of returning the monitor's origin coordinate. -/
theorem C2_clamp_panics_on_oversized_window :
    calculate_top_center_position ⟨0, 0⟩ ⟨100, 100⟩ ⟨200, 50⟩ 40 false = none := by
  decide

/-- Claim C3: monitor at (0,0) sized 1920×1080, window 420×110, margin 40,
top-left origin convention yields exactly (750, 40). -/
theorem C3_scenario_top_origin :
    calculate_top_center_position ⟨0, 0⟩ ⟨1920, 1080⟩ ⟨420, 110⟩ 40 false
      = some (750, 40) := by
  decide

/-- Claim C4: the pre-clamp vertical coordinate is `monitor.y + margin`
under the top-left convention and
`monitor.y + (monitor.height − window.height) − margin` under the
bottom-left convention, and scenario B (same geometry as scenario A,
bottom-left origin) yields (750, 930). -/
theorem C4_desired_y_formula_and_scenario_bottom :
    (∀ (mp : PhysicalPosition) (ms ws : PhysicalSize) (vm : Int),
      topCenterDesiredY mp ms ws vm false = mp.y + vm ∧
      topCenterDesiredY mp ms ws vm true
        = mp.y + ((ms.height : Int) - (ws.height : Int)) - vm) ∧
    calculate_top_center_position ⟨0, 0⟩ ⟨1920, 1080⟩ ⟨420, 110⟩ 40 true
      = some (750, 930) := by
  refine ⟨fun mp ms ws vm => ⟨rfl, rfl⟩, by decide⟩

/-- Claim C5: monitor at (100,50) sized 400×200, window 380×150, margin
200, bottom-left origin: the margin exceeds the available height, so the
vertical coordinate collapses to the monitor's minimum bound: (110, 50). -/
theorem C5_scenario_margin_exceeds_bounds :
    calculate_top_center_position ⟨100, 50⟩ ⟨400, 200⟩ ⟨380, 150⟩ 200 true
      = some (110, 50) := by
  decide

/-- Claim C7: the placement calculator is a pure function of its
arguments: two calls on identical inputs return identical results. -/
theorem C7_deterministic
    (mp1 mp2 : PhysicalPosition) (ms1 ms2 ws1 ws2 : PhysicalSize)
    (vm1 vm2 : Int) (ob1 ob2 : Bool)
    (h1 : mp1 = mp2) (h2 : ms1 = ms2) (h3 : ws1 = ws2)
    (h4 : vm1 = vm2) (h5 : ob1 = ob2) :
    calculate_top_center_position mp1 ms1 ws1 vm1 ob1
      = calculate_top_center_position mp2 ms2 ws2 vm2 ob2 := by
  rw [h1, h2, h3, h4, h5]

/-- Witness for C7: two identical calls on scenario A inputs. -/
theorem C7_witness :
    calculate_top_center_position ⟨0, 0⟩ ⟨1920, 1080⟩ ⟨420, 110⟩ 40 false
      = calculate_top_center_position ⟨0, 0⟩ ⟨1920, 1080⟩ ⟨420, 110⟩ 40 false :=
  C7_deterministic ⟨0, 0⟩ ⟨0, 0⟩ ⟨1920, 1080⟩ ⟨1920, 1080⟩ ⟨420, 110⟩ ⟨420, 110⟩
    40 40 false false rfl rfl rfl rfl rfl

/-- The clamped horizontal coordinate of `position_window_right_center`
(lib.rs lines 119, 123-124, 128): right edge minus margin, clamped to
the monitor's horizontal extent. -/
def right_center_clamped_x
    (monitor_position : PhysicalPosition)
    (monitor_size window_size : PhysicalSize) (m : Int) : Option Int :=
  let desired_x :=
    monitor_position.x + ((monitor_size.width : Int) - (window_size.width : Int)) - m
  let min_x := monitor_position.x
  let max_x := monitor_position.x + ((monitor_size.width : Int) - (window_size.width : Int))
  rustClamp desired_x min_x max_x

/-- The clamped horizontal coordinate of `position_window_left_center`
(lib.rs lines 166, 170-171, 175): left edge plus margin, clamped to the
monitor's horizontal extent. -/
def left_center_clamped_x
    (monitor_position : PhysicalPosition)
    (monitor_size window_size : PhysicalSize) (m : Int) : Option Int :=
  let desired_x := monitor_position.x + m
  let min_x := monitor_position.x
  let max_x := monitor_position.x + ((monitor_size.width : Int) - (window_size.width : Int))
  rustClamp desired_x min_x max_x

/-- The clamped vertical coordinate shared by the left/right edge-center
commands (lib.rs lines 120-121, 125-126, 129): vertical center, clamped. -/
def edge_center_clamped_y
    (monitor_position : PhysicalPosition)
    (monitor_size window_size : PhysicalSize) : Option Int :=
  let available_height := (monitor_size.height : Int) - (window_size.height : Int)
  let desired_y := monitor_position.y + Int.tdiv available_height 2
  rustClamp desired_y monitor_position.y (monitor_position.y + available_height)

/-- `rustClamp` with a well-ordered interval succeeds on both of two
ordered inputs and preserves their order. -/
theorem rustClamp_mono (v1 v2 lo hi : Int) (h : lo ≤ hi) (hv : v1 ≤ v2) :
    ∃ r1 r2, rustClamp v1 lo hi = some r1 ∧ rustClamp v2 lo hi = some r2 ∧ r1 ≤ r2 := by
  refine ⟨if v1 < lo then lo else if v1 > hi then hi else v1,
    if v2 < lo then lo else if v2 > hi then hi else v2,
    by simp [rustClamp, h], by simp [rustClamp, h], ?_⟩
  split_ifs <;> omega

/-- Claim C6: for fixed geometry with the window no wider than the
monitor and margins in the admissible range, the right-edge-center
horizontal coordinate is non-increasing in the margin and the
left-edge-center horizontal coordinate is non-decreasing. -/
theorem C6_edge_center_margin_monotone
    (mp : PhysicalPosition) (ms ws : PhysicalSize) (m1 m2 : Int)
    (hw : ws.width ≤ ms.width) (hm0 : 0 ≤ m1) (h12 : m1 ≤ m2)
    (hm2 : m2 ≤ (ms.width : Int) - (ws.width : Int)) :
    (∃ r1 r2, right_center_clamped_x mp ms ws m1 = some r1 ∧
      right_center_clamped_x mp ms ws m2 = some r2 ∧ r2 ≤ r1) ∧
    (∃ l1 l2, left_center_clamped_x mp ms ws m1 = some l1 ∧
      left_center_clamped_x mp ms ws m2 = some l2 ∧ l1 ≤ l2) := by
  constructor
  · obtain ⟨ra, rb, hra, hrb, hab⟩ :=
      rustClamp_mono
        (mp.x + ((ms.width : Int) - (ws.width : Int)) - m2)
        (mp.x + ((ms.width : Int) - (ws.width : Int)) - m1)
        mp.x (mp.x + ((ms.width : Int) - (ws.width : Int)))
        (by omega) (by omega)
    exact ⟨rb, ra, by simpa [right_center_clamped_x] using hrb,
      by simpa [right_center_clamped_x] using hra, hab⟩
  · obtain ⟨la, lb, hla, hlb, hab⟩ :=
      rustClamp_mono (mp.x + m1) (mp.x + m2)
        mp.x (mp.x + ((ms.width : Int) - (ws.width : Int)))
        (by omega) (by omega)
    exact ⟨la, lb, by simpa [left_center_clamped_x] using hla,
      by simpa [left_center_clamped_x] using hlb, hab⟩

/-- Witness for C6 at monitor (0,0) 1920×1080, window 420×110, margins
10 and 40. -/
theorem C6_witness :
    ((420 : Nat) ≤ 1920 ∧ (0 : Int) ≤ 10 ∧ (10 : Int) ≤ 40 ∧
      (40 : Int) ≤ (1920 : Int) - (420 : Int)) ∧
    ((∃ r1 r2, right_center_clamped_x ⟨0, 0⟩ ⟨1920, 1080⟩ ⟨420, 110⟩ 10 = some r1 ∧
        right_center_clamped_x ⟨0, 0⟩ ⟨1920, 1080⟩ ⟨420, 110⟩ 40 = some r2 ∧ r2 ≤ r1) ∧
      (∃ l1 l2, left_center_clamped_x ⟨0, 0⟩ ⟨1920, 1080⟩ ⟨420, 110⟩ 10 = some l1 ∧
        left_center_clamped_x ⟨0, 0⟩ ⟨1920, 1080⟩ ⟨420, 110⟩ 40 = some l2 ∧ l1 ≤ l2)) :=
  ⟨⟨by decide, by decide, by decide, by decide⟩,
    C6_edge_center_margin_monotone ⟨0, 0⟩ ⟨1920, 1080⟩ ⟨420, 110⟩ 10 40
      (by decide) (by decide) (by decide) (by decide)⟩

/-- A JSON value as stored by the settings store (`serde_json::Value`,
restricted to the shapes this program reads and writes). -/
inductive JsonValue where
  | null : JsonValue
  | bool (b : Bool) : JsonValue
  | num (n : Int) : JsonValue
  | str (s : String) : JsonValue
  | obj (fields : List (String × JsonValue)) : JsonValue

/-- `WindowPos` (lib.rs lines 206-210): a saved custom position. -/
structure WindowPos where
  x : Int
  y : Int

/-- `serde_json::to_value` on a `WindowPos`: a two-field object. -/
def serde_json_to_value (pos : WindowPos) : JsonValue :=
  JsonValue.obj [("x", JsonValue.num pos.x), ("y", JsonValue.num pos.y)]

/-- `serde_json::from_value::<WindowPos>`: read back the two numeric
fields, failing on any other shape. -/
def serde_json_from_value (v : JsonValue) : Except String WindowPos :=
  match v with
  | JsonValue.obj fields =>
    match fields.lookup "x", fields.lookup "y" with
    | some (JsonValue.num x), some (JsonValue.num y) => Except.ok ⟨x, y⟩
    | _, _ => Except.error "missing field"
  | _ => Except.error "invalid type"

/-- The settings store (`tauri_plugin_store`): an in-memory key-value
map plus the outcome the host will report for the next disk flush. -/
structure Store where
  data : List (String × JsonValue)
  save_result : Except String Unit

/-- `store.set(key, value)`: update the in-memory map. -/
def Store.set (st : Store) (key : String) (value : JsonValue) : Store :=
  { st with data := (key, value) :: st.data }

/-- `store.get(key)`: read the in-memory map. -/
def Store.get (st : Store) (key : String) : Option JsonValue :=
  st.data.lookup key

/-- `store.save()`: flush to disk, with the host-determined outcome. -/
def Store.save (st : Store) : Except String Unit :=
  st.save_result

/-- A monitor handle: `monitor.size()` and `monitor.position()`. -/
structure Monitor where
  size : PhysicalSize
  position : PhysicalPosition

/-- The panel webview window handle, carrying the outcomes of the host
queries and mutations the commands perform on it. The results of
`show`, `set_always_on_top` and `set_focus` are discarded by the source
(`let _ = ...`) and are not modelled. -/
structure WebviewWindow where
  current_monitor : Except String (Option Monitor)
  outer_size : Except String PhysicalSize
  set_position_result : Except String Unit

/-- The Tauri `AppHandle` as the commands see it: the
`get_webview_window("panel")` lookup result and the
`app.store("settings.json")` lookup result. -/
structure AppHandle where
  panel_window : Option WebviewWindow
  settings_store : Except String Store

/-- `position_window_top_center` (lib.rs lines 8-57). Returns the
command's `Result<(), String>` paired with the list of positions passed
to `window.set_position`; the outer `Option` is `none` when the
placement calculator panics. -/
def position_window_top_center (app : AppHandle) :
    Option (Except String Unit × List (Int × Int)) :=
  match app.panel_window with
  | none => some (Except.error "Window not found", [])
  | some window =>
    match window.current_monitor with
    | Except.error e => some (Except.error e, [])
    | Except.ok none => some (Except.error "No monitor found", [])
    | Except.ok (some monitor) =>
      let monitor_size := monitor.size
      let monitor_position := monitor.position
      match window.outer_size with
      | Except.error e => some (Except.error e, [])
      | Except.ok window_size =>
        match calculate_top_center_position monitor_position monitor_size window_size
            40 false with
        | none => none
        | some (final_x, final_y) =>
          match window.set_position_result with
          | Except.error e => some (Except.error e, [(final_x, final_y)])
          | Except.ok _ => some (Except.ok (), [(final_x, final_y)])

/-- `position_window_right_center` (lib.rs lines 100-144), same
conventions as `position_window_top_center`. -/
def position_window_right_center (app : AppHandle) (margin : Option Int) :
    Option (Except String Unit × List (Int × Int)) :=
  match app.panel_window with
  | none => some (Except.error "Window not found", [])
  | some window =>
    match window.current_monitor with
    | Except.error e => some (Except.error e, [])
    | Except.ok none => some (Except.error "No monitor found", [])
    | Except.ok (some monitor) =>
      match window.outer_size with
      | Except.error e => some (Except.error e, [])
      | Except.ok window_size =>
        let m := margin.getD 40
        match right_center_clamped_x monitor.position monitor.size window_size m with
        | none => none
        | some clamped_x =>
          match edge_center_clamped_y monitor.position monitor.size window_size with
          | none => none
          | some clamped_y =>
            match window.set_position_result with
            | Except.error e => some (Except.error e, [(clamped_x, clamped_y)])
            | Except.ok _ => some (Except.ok (), [(clamped_x, clamped_y)])

/-- `position_window_left_center` (lib.rs lines 147-191), same
conventions as `position_window_top_center`. -/
def position_window_left_center (app : AppHandle) (margin : Option Int) :
    Option (Except String Unit × List (Int × Int)) :=
  match app.panel_window with
  | none => some (Except.error "Window not found", [])
  | some window =>
    match window.current_monitor with
    | Except.error e => some (Except.error e, [])
    | Except.ok none => some (Except.error "No monitor found", [])
    | Except.ok (some monitor) =>
      match window.outer_size with
      | Except.error e => some (Except.error e, [])
      | Except.ok window_size =>
        let m := margin.getD 40
        match left_center_clamped_x monitor.position monitor.size window_size m with
        | none => none
        | some clamped_x =>
          match edge_center_clamped_y monitor.position monitor.size window_size with
          | none => none
          | some clamped_y =>
            match window.set_position_result with
            | Except.error e => some (Except.error e, [(clamped_x, clamped_y)])
            | Except.ok _ => some (Except.ok (), [(clamped_x, clamped_y)])

/-- `save_custom_position` (lib.rs lines 212-226): serialize the pair
under the key `custom_position_<mode>`, then flush. Returns the
command's result paired with the app state carrying the updated store. -/
def save_custom_position (app : AppHandle) (mode : String) (x y : Int) :
    Except String Unit × AppHandle :=
  match app.settings_store with
  | Except.error e => (Except.error e, app)
  | Except.ok store =>
    let key := "custom_position_" ++ mode
    let pos : WindowPos := ⟨x, y⟩
    let value := serde_json_to_value pos
    let store := store.set key value
    let app := { app with settings_store := Except.ok store }
    match store.save with
    | Except.error e => (Except.error e, app)
    | Except.ok _ => (Except.ok (), app)

/-- `get_custom_position` (lib.rs lines 228-246): read the key
`custom_position_<mode>` and deserialize it back to a pair. -/
def get_custom_position (app : AppHandle) (mode : String) :
    Except String (Option (Int × Int)) :=
  match app.settings_store with
  | Except.error e => Except.error e
  | Except.ok store =>
    let key := "custom_position_" ++ mode
    match store.get key with
    | some value =>
      match serde_json_from_value value with
      | Except.error e => Except.error e
      | Except.ok pos => Except.ok (some (pos.x, pos.y))
    | none => Except.ok none

/-- Claim C8: lookup failures surface as string errors without any call
to `set_position`: a missing panel window yields the error
`Window not found` and a missing monitor yields `No monitor found`,
each with an empty list of applied positions. -/
theorem C8_lookup_failures_surface_as_strings (app : AppHandle) :
    (app.panel_window = none →
      position_window_top_center app = some (Except.error "Window not found", [])) ∧
    (∀ w, app.panel_window = some w → w.current_monitor = Except.ok none →
      position_window_top_center app = some (Except.error "No monitor found", [])) := by
  constructor
  · intro h
    simp [position_window_top_center, h]
  · intro w hw hm
    simp [position_window_top_center, hw, hm]

/-- Witness for C8: one app with no panel window, one whose window has
no monitor. -/
theorem C8_witness :
    position_window_top_center ⟨none, Except.error "store unavailable"⟩
      = some (Except.error "Window not found", []) ∧
    position_window_top_center
        ⟨some ⟨Except.ok none, Except.ok ⟨420, 110⟩, Except.ok ()⟩,
          Except.error "store unavailable"⟩
      = some (Except.error "No monitor found", []) :=
  ⟨(C8_lookup_failures_surface_as_strings
      ⟨none, Except.error "store unavailable"⟩).1 rfl,
    (C8_lookup_failures_surface_as_strings
      ⟨some ⟨Except.ok none, Except.ok ⟨420, 110⟩, Except.ok ()⟩,
        Except.error "store unavailable"⟩).2
      ⟨Except.ok none, Except.ok ⟨420, 110⟩, Except.ok ()⟩ rfl rfl⟩

/-- Claim C9: an absent margin means 40: the right/left edge commands
behave exactly as if called with margin 40, and every position the
top-center command applies comes from the calculator invoked with
vertical margin 40 (and the top-left origin convention). -/
theorem C9_default_margin_forty (app : AppHandle) :
    position_window_right_center app none = position_window_right_center app (some 40) ∧
    position_window_left_center app none = position_window_left_center app (some 40) ∧
    (∀ r ps p, position_window_top_center app = some (r, ps) → p ∈ ps →
      ∃ w monitor window_size,
        app.panel_window = some w ∧
        w.current_monitor = Except.ok (some monitor) ∧
        w.outer_size = Except.ok window_size ∧
        calculate_top_center_position monitor.position monitor.size window_size 40 false
          = some p) := by
  refine ⟨rfl, rfl, ?_⟩
  intro r ps p hps hp
  obtain ⟨pw, ss⟩ := app
  cases pw with
  | none =>
    simp [position_window_top_center] at hps
    obtain ⟨h1, h2⟩ := hps
    subst h2
    exact absurd hp (List.not_mem_nil p)
  | some window =>
    obtain ⟨cm, os, spr⟩ := window
    cases cm with
    | error e =>
      simp [position_window_top_center] at hps
      obtain ⟨h1, h2⟩ := hps
      subst h2
      exact absurd hp (List.not_mem_nil p)
    | ok om =>
      cases om with
      | none =>
        simp [position_window_top_center] at hps
        obtain ⟨h1, h2⟩ := hps
        subst h2
        exact absurd hp (List.not_mem_nil p)
      | some monitor =>
        cases os with
        | error e =>
          simp [position_window_top_center] at hps
          obtain ⟨h1, h2⟩ := hps
          subst h2
          exact absurd hp (List.not_mem_nil p)
        | ok window_size =>
          cases hc : calculate_top_center_position monitor.position monitor.size
              window_size 40 false with
          | none =>
            simp [position_window_top_center, hc] at hps
          | some q =>
            obtain ⟨fx, fy⟩ := q
            cases spr with
            | error e =>
              simp [position_window_top_center, hc] at hps
              obtain ⟨h1, h2⟩ := hps
              subst h2
              simp only [List.mem_singleton] at hp
              subst hp
              exact ⟨⟨Except.ok (some monitor), Except.ok window_size, Except.error e⟩,
                monitor, window_size, rfl, rfl, rfl, hc⟩
            | ok u =>
              simp [position_window_top_center, hc] at hps
              obtain ⟨h1, h2⟩ := hps
              subst h2
              simp only [List.mem_singleton] at hp
              subst hp
              exact ⟨⟨Except.ok (some monitor), Except.ok window_size, Except.ok u⟩,
                monitor, window_size, rfl, rfl, rfl, hc⟩

/-- Witness for C9: a fully successful app on scenario A geometry; the
only applied position is the calculator's output for margin 40. -/
theorem C9_witness :
    ∃ w monitor window_size,
      (AppHandle.mk
          (some ⟨Except.ok (some ⟨⟨1920, 1080⟩, ⟨0, 0⟩⟩), Except.ok ⟨420, 110⟩,
            Except.ok ()⟩)
          (Except.error "store unavailable")).panel_window = some w ∧
      w.current_monitor = Except.ok (some monitor) ∧
      w.outer_size = Except.ok window_size ∧
      calculate_top_center_position monitor.position monitor.size window_size 40 false
        = some (750, 40) :=
  (C9_default_margin_forty
      ⟨some ⟨Except.ok (some ⟨⟨1920, 1080⟩, ⟨0, 0⟩⟩), Except.ok ⟨420, 110⟩,
        Except.ok ()⟩, Except.error "store unavailable"⟩).2.2
    (Except.ok ()) [(750, 40)] (750, 40) rfl (by simp)

/-- Claim C10: custom-position persistence round-trips: when
`save_custom_position mode x y` reports success, `get_custom_position
mode` on the resulting state returns `Ok (Some (x, y))`. -/
theorem C10_custom_position_roundtrip
    (app : AppHandle) (mode : String) (x y : Int)
    (h : (save_custom_position app mode x y).1 = Except.ok ()) :
    get_custom_position (save_custom_position app mode x y).2 mode
      = Except.ok (some (x, y)) := by
  obtain ⟨pw, ss⟩ := app
  cases ss with
  | error e => simp [save_custom_position] at h
  | ok store =>
    obtain ⟨data, sr⟩ := store
    cases sr with
    | error e => simp [save_custom_position, Store.set, Store.save] at h
    | ok u =>
      simp [save_custom_position, get_custom_position, Store.set, Store.get, Store.save,
        serde_json_to_value, serde_json_from_value, List.lookup]

/-- Witness for C10: saving (12, 34) under mode `top` on a fresh store
and reading it back. -/
theorem C10_witness :
    (save_custom_position ⟨none, Except.ok ⟨[], Except.ok ()⟩⟩ "top" 12 34).1
        = Except.ok () ∧
    get_custom_position
        (save_custom_position ⟨none, Except.ok ⟨[], Except.ok ()⟩⟩ "top" 12 34).2 "top"
      = Except.ok (some (12, 34)) :=
  ⟨rfl, C10_custom_position_roundtrip ⟨none, Except.ok ⟨[], Except.ok ()⟩⟩ "top" 12 34 rfl⟩
